import Mathlib

/-!
Verification of the client-map data pipeline (`src/map_tessan.py`).

The script loads a client table, drops rows with a missing `Address`,
filters by a user-selected `AdministrativeArea2` value (a placeholder
value acts as the "no filter yet" sentinel and stops the run), geocodes
each filtered address through a memoized adapter, drops rows whose
geocoding failed, and centers a map on the arithmetic mean of the
resolved coordinates.

The embedding below models each stage as a pure function.  Coordinates
are rationals, the geocoding provider is an explicit environment
`String → ProviderResponse`, and the framework-level memoization of
`st.cache_data` is an explicit association-list cache threaded through
the per-row geocoding pass, recording every external call made.
-/

set_option autoImplicit false

namespace MapTessan

/-- One raw row of the loaded CSV table, with the columns the script
uses (`Name`, `Address`, `PostalCode`, `Locality`,
`AdministrativeArea2`).  Cell text is a plain string; following the
CSV reader's default NA handling, an empty cell parses as missing, so
a missing `Address` is modelled as the empty string. -/
structure RawRow where
  Name : String
  Address : String
  PostalCode : String
  Locality : String
  AdministrativeArea2 : String
  deriving DecidableEq

/-- A row after the geocoding pass: the original row plus the two new
columns `lat` and `lng`, each possibly NaN (modelled as `none`). -/
structure GeoRow where
  row : RawRow
  lat : Option ℚ
  lng : Option ℚ
  deriving DecidableEq

/-- Response of the external geocoding provider for one query: a best
match with coordinates, no match (empty result list), or a raised
error. -/
inductive ProviderResponse where
  | ok (lat lng : ℚ)
  | noMatch
  | error (msg : String)
  deriving DecidableEq

/-- Embedding of `get_geocode` (src/map_tessan.py lines 24-45) minus
its framework cache: on a match it returns the first result's
coordinates, on an empty result it returns the absent pair, and on a
raised exception it reports the error and returns the absent pair
instead of propagating the exception. -/
def get_geocode : ProviderResponse → Option (ℚ × ℚ)
  | ProviderResponse.ok lat lng => some (lat, lng)
  | ProviderResponse.noMatch => none
  | ProviderResponse.error _ => none

/-- State of the run-scoped memoization that `st.cache_data` puts in
front of `get_geocode`: the cache of previously computed answers, and
the list of queries for which an external call was actually made, in
order. -/
structure GeoState where
  cache : List (String × Option (ℚ × ℚ))
  calls : List String
  deriving DecidableEq

/-- The memoization cache at the start of a run: empty, no external
calls made yet. -/
def initGeoState : GeoState := ⟨[], []⟩

/-- Lookup of a query in the memoization cache (first match wins). -/
def cacheLookup : List (String × Option (ℚ × ℚ)) → String → Option (Option (ℚ × ℚ))
  | [], _ => none
  | (k, v) :: rest, q => if k = q then some v else cacheLookup rest q

/-- One call to the cached geocoder: a cache hit returns the stored
answer and leaves the state unchanged; a miss performs one external
call, stores the answer, and records the call. -/
def geocodeCached (p : String → ProviderResponse) (s : GeoState) (q : String) :
    Option (ℚ × ℚ) × GeoState :=
  match cacheLookup s.cache q with
  | some r => (r, s)
  | none =>
      let r := get_geocode (p q)
      (r, ⟨(q, r) :: s.cache, s.calls ++ [q]⟩)

/-- Attach a geocoding answer to a row as the `lat` and `lng` columns
(line 86: both columns come from the one returned pair, so they are
absent together). -/
def attachCoords (r : RawRow) (g : Option (ℚ × ℚ)) : GeoRow :=
  ⟨r, g.map Prod.fst, g.map Prod.snd⟩

/-- The per-row geocoding pass of line 86: apply the cached geocoder
to each row's address in order, threading the memoization state. -/
def geocodeRows (p : String → ProviderResponse) (s : GeoState) :
    List RawRow → List GeoRow × GeoState
  | [] => ([], s)
  | r :: rs =>
      let first := geocodeCached p s r.Address
      let rest := geocodeRows p first.2 rs
      (attachCoords r first.1 :: rest.1, rest.2)

/-- The Data Loader's output (lines 17-22 and 55-56): the rows of the
fetched table with every row whose `Address` cell is missing dropped
(`dropna` on the `Address` column). -/
def load_clients (rows : List RawRow) : List RawRow :=
  rows.filter (fun r => r.Address != "")

/-- The filtering expression of line 76: keep exactly the rows whose
`AdministrativeArea2` equals the selected value, in order. -/
def filterByArea (recs : List RawRow) (v : String) : List RawRow :=
  recs.filter (fun r => r.AdministrativeArea2 == v)

/-- The user's selection in the sidebar: either the placeholder (the
"no filter yet" sentinel) or a concrete department value. -/
inductive Selection where
  | sentinel
  | value (v : String)
  deriving DecidableEq

/-- The filter stage as the script runs it (lines 72-76): with the
placeholder still selected the script shows an info message and calls
st.stop, so no record sequence is produced; with a concrete value it
filters by that value. -/
def filterStage (recs : List RawRow) : Selection → Option (List RawRow)
  | Selection.sentinel => none
  | Selection.value v => some (filterByArea recs v)

/-- Line 89: drop the rows whose geocoding failed, that is keep the
rows where both new columns are present. -/
def dropUnresolved (grs : List GeoRow) : List GeoRow :=
  grs.filter (fun g => g.lat.isSome && g.lng.isSome)

/-- The `lat` column of an enriched table, skipping absent cells as
the column mean does. -/
def latColumn (grs : List GeoRow) : List ℚ :=
  grs.filterMap (fun g => g.lat)

/-- The `lng` column of an enriched table, skipping absent cells as
the column mean does. -/
def lngColumn (grs : List GeoRow) : List ℚ :=
  grs.filterMap (fun g => g.lng)

/-- Column mean as pandas computes it on the resolved columns: sum of
the values divided by their count. -/
def mean (xs : List ℚ) : ℚ := xs.sum / (xs.length : ℚ)

/-- Outcome of one run of `main`: the script stops asking for a
selection, warns that the filter matched nothing, warns that no row
could be geocoded, or renders the map from the resolved rows centered
on the given point. -/
inductive Outcome where
  | needSelection
  | emptyFilter
  | emptyResolved
  | rendered (records : List GeoRow) (centroid : ℚ × ℚ)
  deriving DecidableEq

/-- Embedding of `main` (src/map_tessan.py lines 51-106): load and
drop rows missing an address, stop if the placeholder is still
selected, filter by the selected department, warn and return if
nothing matches, geocode the filtered rows through the cached adapter,
drop unresolved rows, warn and return if none resolved, otherwise
render with the centroid taken as the mean of the `lat` and `lng`
columns.  The result is the outcome together with the final
memoization state, whose `calls` field lists the external geocoding
calls the run performed. -/
def run (rows : List RawRow) (sel : Selection) (p : String → ProviderResponse) :
    Outcome × GeoState :=
  match sel with
  | Selection.sentinel => (Outcome.needSelection, initGeoState)
  | Selection.value v =>
      let data1 := filterByArea (load_clients rows) v
      if data1.isEmpty then (Outcome.emptyFilter, initGeoState)
      else
        let gr := geocodeRows p initGeoState data1
        let data2 := dropUnresolved gr.1
        if data2.isEmpty then (Outcome.emptyResolved, gr.2)
        else (Outcome.rendered data2 (mean (latColumn data2), mean (lngColumn data2)), gr.2)

/-!  Concrete rows and provider environments used by the witnesses. -/

/-- A sample client row with a present address. -/
def rowA : RawRow := ⟨"Alice", "1 rue de la Paix", "29000", "Quimper", "Finistere"⟩

/-- A second sample row sharing the exact address string of `rowA`. -/
def rowA2 : RawRow := ⟨"Amelie", "1 rue de la Paix", "29001", "Quimper", "Finistere"⟩

/-- A sample row whose address the mixed provider fails on. -/
def rowBad : RawRow := ⟨"Bob", "bad", "29200", "Brest", "Finistere"⟩

/-- A sample row with a distinct address, for a two-point centroid. -/
def rowC : RawRow := ⟨"Carol", "2 avenue Foch", "56000", "Vannes", "Finistere"⟩

/-- A provider that resolves every address to (3, 5). -/
def pOk : String → ProviderResponse := fun _ => ProviderResponse.ok 3 5

/-- A provider that never finds a match. -/
def pAbsent : String → ProviderResponse := fun _ => ProviderResponse.noMatch

/-- A provider that raises on the address "bad" and resolves every
other address to (1, 2). -/
def pMix : String → ProviderResponse :=
  fun a => if a = "bad" then ProviderResponse.error "boom" else ProviderResponse.ok 1 2

/-- A provider that gives distinct coordinates to two addresses. -/
def pTwo : String → ProviderResponse :=
  fun a => if a = "1 rue de la Paix" then ProviderResponse.ok 3 5 else ProviderResponse.ok 1 2

/-!  Helper lemmas about the memoization cache. -/

theorem cacheLookup_cons_self (q : String) (v : Option (ℚ × ℚ))
    (c : List (String × Option (ℚ × ℚ))) : cacheLookup ((q, v) :: c) q = some v := by
  simp [cacheLookup]

/-- A memoization state is consistent with a provider when every
cached answer is the one the uncached geocoder would give. -/
def cacheConsistent (p : String → ProviderResponse) (s : GeoState) : Prop :=
  ∀ q r, cacheLookup s.cache q = some r → r = get_geocode (p q)

theorem initGeoState_consistent (p : String → ProviderResponse) :
    cacheConsistent p initGeoState := by
  intro q r h
  simp [initGeoState, cacheLookup] at h

theorem geocodeCached_fst (p : String → ProviderResponse) (s : GeoState) (q : String)
    (h : cacheConsistent p s) : (geocodeCached p s q).1 = get_geocode (p q) := by
  rcases hc : cacheLookup s.cache q with _ | r
  · simp [geocodeCached, hc]
  · simp [geocodeCached, hc, h q r hc]

theorem geocodeCached_consistent (p : String → ProviderResponse) (s : GeoState) (q : String)
    (h : cacheConsistent p s) : cacheConsistent p (geocodeCached p s q).2 := by
  rcases hc : cacheLookup s.cache q with _ | r
  · intro q' r' h'
    simp only [geocodeCached, hc] at h'
    simp only [cacheLookup] at h'
    by_cases hq : q = q'
    · subst hq
      simp at h'
      exact h'.symm
    · rw [if_neg hq] at h'
      exact h q' r' h'
  · simpa [geocodeCached, hc] using h

/-- The geocoding pass from a consistent state attaches to each row,
independently, the answer the uncached geocoder gives on that row's
address. -/
theorem geocodeRows_fst (p : String → ProviderResponse) (s : GeoState)
    (h : cacheConsistent p s) (rs : List RawRow) :
    (geocodeRows p s rs).1 =
      rs.map (fun r => attachCoords r (get_geocode (p r.Address))) := by
  induction rs generalizing s with
  | nil => rfl
  | cons r rs ih =>
      simp only [geocodeRows, List.map_cons]
      rw [geocodeCached_fst p s r.Address h,
        ih (geocodeCached p s r.Address).2 (geocodeCached_consistent p s r.Address h)]

/-- Inversion of a rendered run: the records are the resolved subset
of the geocoded filtered rows, and the centroid is the mean of their
coordinate columns. -/
theorem run_rendered_inv (rows : List RawRow) (v : String)
    (p : String → ProviderResponse) (recs : List GeoRow) (c : ℚ × ℚ) (s : GeoState)
    (h : run rows (Selection.value v) p = (Outcome.rendered recs c, s)) :
    recs = dropUnresolved ((filterByArea (load_clients rows) v).map
        (fun r => attachCoords r (get_geocode (p r.Address)))) ∧
    c = (mean (latColumn recs), mean (lngColumn recs)) := by
  simp only [run] at h
  split at h
  · simp at h
  · split at h
    · simp at h
    · rw [Prod.mk.injEq, Outcome.rendered.injEq] at h
      obtain ⟨⟨h1, h2⟩, _⟩ := h
      subst h1
      refine ⟨?_, h2.symm⟩
      rw [geocodeRows_fst p initGeoState (initGeoState_consistent p)]

/-- Membership in the resolved set forces both coordinates present. -/
theorem mem_dropUnresolved (g : GeoRow) (l : List GeoRow) (h : g ∈ dropUnresolved l) :
    g ∈ l ∧ g.lat.isSome = true ∧ g.lng.isSome = true := by
  simpa [dropUnresolved, List.mem_filter, Bool.and_eq_true] using h

/-- On a table whose rows all carry a latitude, the latitude column
is the list of those latitudes. -/
theorem latColumn_eq_map (l : List GeoRow) (h : ∀ g ∈ l, g.lat.isSome = true) :
    latColumn l = l.map (fun g => g.lat.getD 0) := by
  induction l with
  | nil => rfl
  | cons g l ih =>
      rcases Option.isSome_iff_exists.mp (h g (by simp)) with ⟨x, hx⟩
      have ih' := ih (fun g' hg' => h g' (by simp [hg']))
      simp only [latColumn] at ih' ⊢
      simp [List.filterMap_cons, hx, ih']

/-- On a table whose rows all carry a longitude, the longitude column
is the list of those longitudes. -/
theorem lngColumn_eq_map (l : List GeoRow) (h : ∀ g ∈ l, g.lng.isSome = true) :
    lngColumn l = l.map (fun g => g.lng.getD 0) := by
  induction l with
  | nil => rfl
  | cons g l ih =>
      rcases Option.isSome_iff_exists.mp (h g (by simp)) with ⟨x, hx⟩
      have ih' := ih (fun g' hg' => h g' (by simp [hg']))
      simp only [lngColumn] at ih' ⊢
      simp [List.filterMap_cons, hx, ih']

/-!  Claims. -/

/-- C1: for every record sequence and concrete selected value `v`,
the filter stage keeps exactly the records whose administrative area
equals `v`, preserves the input order (the result is a sublist of the
input), and the result is no longer than the input. -/
theorem C1_filter_exact (recs : List RawRow) (v : String) :
    (∀ r, r ∈ filterByArea recs v ↔ r ∈ recs ∧ r.AdministrativeArea2 = v) ∧
    (filterByArea recs v).Sublist recs ∧
    (filterByArea recs v).length ≤ recs.length := by
  refine ⟨fun r => ?_, List.filter_sublist _, List.length_filter_le _ _⟩
  simp [filterByArea, List.mem_filter]

/-- C8: every record in the Data Loader's output has a non-empty
address; a row is kept by the loader exactly when it came from the
source table and its address cell is not missing. -/
theorem C8_loader_nonempty_address (rows : List RawRow) :
    ∀ r, r ∈ load_clients rows ↔ r ∈ rows ∧ r.Address ≠ "" := by
  intro r
  simp [load_clients, List.mem_filter]

/-- C4: the cached geocoder is memoized per address string: a second
call with the same query returns the same answer and changes nothing
(no second external call), one call adds at most one external call,
and two rows sharing an identical address string are geocoded with
exactly one external call, both receiving the same coordinates. -/
theorem C4_memoized_per_address (p : String → ProviderResponse) (s : GeoState) (q : String)
    (r1 r2 : RawRow) (h : r1.Address = r2.Address) :
    (geocodeCached p (geocodeCached p s q).2 q).1 = (geocodeCached p s q).1 ∧
    (geocodeCached p (geocodeCached p s q).2 q).2 = (geocodeCached p s q).2 ∧
    (geocodeCached p s q).2.calls.length ≤ s.calls.length + 1 ∧
    (geocodeRows p initGeoState [r1, r2]).1 =
      [attachCoords r1 (get_geocode (p r1.Address)),
       attachCoords r2 (get_geocode (p r1.Address))] ∧
    (geocodeRows p initGeoState [r1, r2]).2.calls = [r1.Address] := by
  have hrows : (geocodeRows p initGeoState [r1, r2]).1 =
        [attachCoords r1 (get_geocode (p r1.Address)),
         attachCoords r2 (get_geocode (p r1.Address))] ∧
      (geocodeRows p initGeoState [r1, r2]).2.calls = [r1.Address] := by
    simp [geocodeRows, geocodeCached, initGeoState, cacheLookup, ← h]
  rcases hc : cacheLookup s.cache q with _ | r
  · refine ⟨?_, ?_, ?_, hrows.1, hrows.2⟩ <;>
      simp [geocodeCached, hc, cacheLookup_cons_self]
  · refine ⟨?_, ?_, ?_, hrows.1, hrows.2⟩ <;> simp [geocodeCached, hc]

/-- C4 witness: two concrete rows sharing one address, geocoded from
a fresh run against the constant provider. -/
theorem C4_memoized_per_address_witness :
    rowA.Address = rowA2.Address ∧
    ((geocodeCached pOk (geocodeCached pOk initGeoState "x").2 "x").1 =
        (geocodeCached pOk initGeoState "x").1 ∧
      (geocodeCached pOk (geocodeCached pOk initGeoState "x").2 "x").2 =
        (geocodeCached pOk initGeoState "x").2 ∧
      (geocodeCached pOk initGeoState "x").2.calls.length ≤ initGeoState.calls.length + 1 ∧
      (geocodeRows pOk initGeoState [rowA, rowA2]).1 =
        [attachCoords rowA (get_geocode (pOk rowA.Address)),
         attachCoords rowA2 (get_geocode (pOk rowA.Address))] ∧
      (geocodeRows pOk initGeoState [rowA, rowA2]).2.calls = [rowA.Address]) :=
  ⟨by decide, C4_memoized_per_address pOk initGeoState "x" rowA rowA2 (by decide)⟩

/-- C9 counterexample: with the sentinel still selected the filter
stage does not return the input records unchanged — it produces no
record sequence at all, and the run stops asking for a selection. -/
theorem C9_sentinel_counterexample :
    filterStage [rowA] Selection.sentinel ≠ some [rowA] ∧
    (run [rowA] Selection.sentinel pAbsent).1 = Outcome.needSelection := by
  exact ⟨by decide, rfl⟩

/-- C9 amended: with the no-filter sentinel the filter stage returns
no record sequence; the pipeline halts requesting a selection, with
no geocoding call made. -/
theorem C9_sentinel_halts (recs rows : List RawRow) (p : String → ProviderResponse) :
    filterStage recs Selection.sentinel = none ∧
    run rows Selection.sentinel p = (Outcome.needSelection, initGeoState) ∧
    initGeoState.calls = [] :=
  ⟨rfl, rfl, rfl⟩

/-- C6: when the filtered result is empty the run halts with the
empty-filter warning and its final state records no external
geocoding call. -/
theorem C6_empty_filter_halts (rows : List RawRow) (v : String)
    (p : String → ProviderResponse)
    (h : filterByArea (load_clients rows) v = []) :
    run rows (Selection.value v) p = (Outcome.emptyFilter, initGeoState) ∧
    (run rows (Selection.value v) p).2.calls = [] := by
  have hrun : run rows (Selection.value v) p = (Outcome.emptyFilter, initGeoState) := by
    simp [run, h]
  exact ⟨hrun, by rw [hrun]; rfl⟩

/-- C6 witness: a one-row table filtered to a department matching no
row. -/
theorem C6_empty_filter_halts_witness :
    filterByArea (load_clients [rowA]) "Morbihan" = [] ∧
    (run [rowA] (Selection.value "Morbihan") pAbsent = (Outcome.emptyFilter, initGeoState) ∧
      (run [rowA] (Selection.value "Morbihan") pAbsent).2.calls = []) :=
  ⟨by decide, C6_empty_filter_halts [rowA] "Morbihan" pAbsent (by decide)⟩

/-- C3: every record in the set a rendered run passes to the
presentation layer has both coordinates present; records whose
geocoding failed were excluded before rendering. -/
theorem C3_rendered_all_resolved (rows : List RawRow) (sel : Selection)
    (p : String → ProviderResponse) (recs : List GeoRow) (c : ℚ × ℚ) (s : GeoState)
    (h : run rows sel p = (Outcome.rendered recs c, s)) :
    ∀ g ∈ recs, g.lat.isSome = true ∧ g.lng.isSome = true := by
  cases sel with
  | sentinel => simp [run] at h
  | value v =>
      obtain ⟨hrecs, -⟩ := run_rendered_inv rows v p recs c s h
      intro g hg
      rw [hrecs] at hg
      exact (mem_dropUnresolved g _ hg).2

/-- C3 witness: a rendered one-row run, whose single record carries
both coordinates. -/
theorem C3_rendered_all_resolved_witness :
    run [rowA] (Selection.value "Finistere") pOk =
      (Outcome.rendered [⟨rowA, some 3, some 5⟩] (mean [3], mean [5]),
       ⟨[("1 rue de la Paix", some (3, 5))], ["1 rue de la Paix"]⟩) ∧
    ∀ g ∈ [(⟨rowA, some 3, some 5⟩ : GeoRow)], g.lat.isSome = true ∧ g.lng.isSome = true :=
  ⟨rfl,
    C3_rendered_all_resolved [rowA] (Selection.value "Finistere") pOk
      [⟨rowA, some 3, some 5⟩] (mean [3], mean [5])
      ⟨[("1 rue de la Paix", some (3, 5))], ["1 rue de la Paix"]⟩ rfl⟩

/-- C2: the centroid of a rendered run is the arithmetic mean of the
latitudes and the arithmetic mean of the longitudes taken over
exactly the records of the resolved, filtered set it renders. -/
theorem C2_centroid_is_mean (rows : List RawRow) (sel : Selection)
    (p : String → ProviderResponse) (recs : List GeoRow) (c : ℚ × ℚ) (s : GeoState)
    (h : run rows sel p = (Outcome.rendered recs c, s)) :
    c.1 = mean (recs.map (fun g => g.lat.getD 0)) ∧
    c.2 = mean (recs.map (fun g => g.lng.getD 0)) := by
  cases sel with
  | sentinel => simp [run] at h
  | value v =>
      obtain ⟨hrecs, hc⟩ := run_rendered_inv rows v p recs c s h
      have hall : ∀ g ∈ recs, g.lat.isSome = true ∧ g.lng.isSome = true := by
        intro g hg
        rw [hrecs] at hg
        exact (mem_dropUnresolved g _ hg).2
      rw [hc]
      constructor
      · show mean (latColumn recs) = _
        rw [latColumn_eq_map recs (fun g hg => (hall g hg).1)]
      · show mean (lngColumn recs) = _
        rw [lngColumn_eq_map recs (fun g hg => (hall g hg).2)]

/-- C2 witness: a rendered two-row run with distinct coordinates,
whose centroid is the componentwise mean. -/
theorem C2_centroid_is_mean_witness :
    mean [(3 : ℚ), 1] = 2 ∧ mean [(5 : ℚ), 2] = 7 / 2 ∧
    run [rowA, rowC] (Selection.value "Finistere") pTwo =
      (Outcome.rendered [⟨rowA, some 3, some 5⟩, ⟨rowC, some 1, some 2⟩]
          (mean [3, 1], mean [5, 2]),
       ⟨[("2 avenue Foch", some (1, 2)), ("1 rue de la Paix", some (3, 5))],
        ["1 rue de la Paix", "2 avenue Foch"]⟩) ∧
    ((mean [(3 : ℚ), 1], mean [(5 : ℚ), 2]).1 =
        mean ([(⟨rowA, some 3, some 5⟩ : GeoRow), ⟨rowC, some 1, some 2⟩].map
          (fun g => g.lat.getD 0)) ∧
      (mean [(3 : ℚ), 1], mean [(5 : ℚ), 2]).2 =
        mean ([(⟨rowA, some 3, some 5⟩ : GeoRow), ⟨rowC, some 1, some 2⟩].map
          (fun g => g.lng.getD 0))) :=
  ⟨by norm_num [mean], by norm_num [mean], rfl,
    C2_centroid_is_mean [rowA, rowC] (Selection.value "Finistere") pTwo
      [⟨rowA, some 3, some 5⟩, ⟨rowC, some 1, some 2⟩] (mean [3, 1], mean [5, 2])
      ⟨[("2 avenue Foch", some (1, 2)), ("1 rue de la Paix", some (3, 5))],
       ["1 rue de la Paix", "2 avenue Foch"]⟩ rfl⟩

/-- C7: when the filtered set is non-empty but no row of it resolves,
the run halts with the no-resolvable-records warning, before any
rendering: no centroid is computed and no map is built. -/
theorem C7_empty_resolved_halts (rows : List RawRow) (v : String)
    (p : String → ProviderResponse)
    (h1 : filterByArea (load_clients rows) v ≠ [])
    (h2 : dropUnresolved
        (geocodeRows p initGeoState (filterByArea (load_clients rows) v)).1 = []) :
    run rows (Selection.value v) p =
      (Outcome.emptyResolved,
       (geocodeRows p initGeoState (filterByArea (load_clients rows) v)).2) := by
  simp [run, h1, h2]

/-- C7 witness: a one-row table whose address never resolves. -/
theorem C7_empty_resolved_halts_witness :
    filterByArea (load_clients [rowA]) "Finistere" ≠ [] ∧
    (dropUnresolved
        (geocodeRows pAbsent initGeoState (filterByArea (load_clients [rowA]) "Finistere")).1
      = []) ∧
    run [rowA] (Selection.value "Finistere") pAbsent =
      (Outcome.emptyResolved,
       (geocodeRows pAbsent initGeoState (filterByArea (load_clients [rowA]) "Finistere")).2) :=
  ⟨by decide, by decide,
    C7_empty_resolved_halts [rowA] "Finistere" pAbsent (by decide) (by decide)⟩

/-- C5: on a provider error or no match the geocoder returns the
absent pair instead of raising, and one failing address never aborts
the rest: any filtered record whose address resolves still reaches
the rendered set, whatever the provider does on other addresses. -/
theorem C5_fault_isolation (rows : List RawRow) (v : String)
    (p : String → ProviderResponse) (r : RawRow) (la ln : ℚ)
    (hr : r ∈ filterByArea (load_clients rows) v)
    (hp : p r.Address = ProviderResponse.ok la ln) :
    (∀ m, get_geocode (ProviderResponse.error m) = none) ∧
    get_geocode ProviderResponse.noMatch = none ∧
    ∃ recs c s, run rows (Selection.value v) p = (Outcome.rendered recs c, s) ∧
      attachCoords r (some (la, ln)) ∈ recs := by
  refine ⟨fun m => rfl, rfl, ?_⟩
  have hne1 : filterByArea (load_clients rows) v ≠ [] := List.ne_nil_of_mem hr
  have hmem : attachCoords r (some (la, ln)) ∈
      dropUnresolved (geocodeRows p initGeoState (filterByArea (load_clients rows) v)).1 := by
    rw [geocodeRows_fst p initGeoState (initGeoState_consistent p)]
    have hf : attachCoords r (get_geocode (p r.Address)) = attachCoords r (some (la, ln)) := by
      rw [hp]; rfl
    apply List.mem_filter.mpr
    refine ⟨?_, by simp [attachCoords]⟩
    rw [← hf]
    exact List.mem_map_of_mem _ hr
  have hne2 : dropUnresolved
      (geocodeRows p initGeoState (filterByArea (load_clients rows) v)).1 ≠ [] :=
    List.ne_nil_of_mem hmem
  refine ⟨dropUnresolved
      (geocodeRows p initGeoState (filterByArea (load_clients rows) v)).1,
    (mean (latColumn (dropUnresolved
        (geocodeRows p initGeoState (filterByArea (load_clients rows) v)).1)),
     mean (lngColumn (dropUnresolved
        (geocodeRows p initGeoState (filterByArea (load_clients rows) v)).1))),
    (geocodeRows p initGeoState (filterByArea (load_clients rows) v)).2, ?_, hmem⟩
  simp [run, hne1, hne2]

/-- C5 witness: two filtered rows, the provider raising on the first
address; the second row still reaches the rendered set. -/
theorem C5_fault_isolation_witness :
    rowA ∈ filterByArea (load_clients [rowBad, rowA]) "Finistere" ∧
    pMix rowA.Address = ProviderResponse.ok 1 2 ∧
    ((∀ m, get_geocode (ProviderResponse.error m) = none) ∧
      get_geocode ProviderResponse.noMatch = none ∧
      ∃ recs c s,
        run [rowBad, rowA] (Selection.value "Finistere") pMix = (Outcome.rendered recs c, s) ∧
        attachCoords rowA (some (1, 2)) ∈ recs) :=
  ⟨by decide, by decide,
    C5_fault_isolation [rowBad, rowA] "Finistere" pMix rowA 1 2 (by decide) (by decide)⟩

/-- C10: enrichment only adds the two coordinate columns and drops
unresolved rows: the underlying rows of a rendered run's records form
an order-preserving subsequence of the filtered input, every retained
record's original columns being unchanged. -/
theorem C10_enrich_frame (rows : List RawRow) (v : String)
    (p : String → ProviderResponse) (recs : List GeoRow) (c : ℚ × ℚ) (s : GeoState)
    (h : run rows (Selection.value v) p = (Outcome.rendered recs c, s)) :
    (recs.map GeoRow.row).Sublist (filterByArea (load_clients rows) v) ∧
    ∀ g ∈ recs, g.row ∈ filterByArea (load_clients rows) v := by
  obtain ⟨hrecs, -⟩ := run_rendered_inv rows v p recs c s h
  have hsub : (recs.map GeoRow.row).Sublist (filterByArea (load_clients rows) v) := by
    rw [hrecs]
    unfold dropUnresolved
    rw [List.filter_map, List.map_map]
    have hid : (GeoRow.row ∘ fun r => attachCoords r (get_geocode (p r.Address))) = id := rfl
    rw [hid, List.map_id]
    exact List.filter_sublist _
  exact ⟨hsub, fun g hg => hsub.subset (List.mem_map_of_mem GeoRow.row hg)⟩

/-- C10 witness: a filtered input of two rows, the first dropped as
unresolved; the retained record keeps its original columns and the
order is preserved. -/
theorem C10_enrich_frame_witness :
    run [rowBad, rowA] (Selection.value "Finistere") pMix =
      (Outcome.rendered [⟨rowA, some 1, some 2⟩] (mean [1], mean [2]),
       ⟨[("1 rue de la Paix", some (1, 2)), ("bad", none)], ["bad", "1 rue de la Paix"]⟩) ∧
    (([(⟨rowA, some 1, some 2⟩ : GeoRow)].map GeoRow.row).Sublist
        (filterByArea (load_clients [rowBad, rowA]) "Finistere") ∧
      ∀ g ∈ [(⟨rowA, some 1, some 2⟩ : GeoRow)],
        g.row ∈ filterByArea (load_clients [rowBad, rowA]) "Finistere") :=
  ⟨rfl,
    C10_enrich_frame [rowBad, rowA] "Finistere" pMix [⟨rowA, some 1, some 2⟩]
      (mean [1], mean [2])
      ⟨[("1 rue de la Paix", some (1, 2)), ("bad", none)], ["bad", "1 rue de la Paix"]⟩
      rfl⟩

end MapTessan
